import Mathlib

/-!
Shallow embedding of the SAP SuccessFactors time-tracking automation
(sources: src/core/config.ts with its bundled types and
TimeEventCreator, src/time-tracking/navigation.ts,
src/authentication/auth.ts, and the main entry point).

Browser interaction is modelled by records whose fields give the outcome
of each page-side call site: an `Except String Unit` (or
`Except String Bool` for element queries) stands for one awaited
puppeteer call, `.error msg` being a rejected promise / thrown
exception with that message. Pure string manipulation is translated
directly. Fixed sleeps (`setTimeout` promises) never fail and carry no
data, so they vanish in the embedding.
-/

namespace SapTta

/-- JS `String.prototype.includes(sub)` for non-empty patterns:
`sub` occurs as a contiguous substring. -/
def hasSub (sub : List Char) : List Char → Bool
  | [] => sub.isEmpty
  | c :: cs => sub.isPrefixOf (c :: cs) || hasSub sub cs

/-- `s.includes(sub)` from JS, on our model strings. -/
def jsIncludes (s sub : String) : Bool := hasSub sub.data s.data

/-- JS `String.prototype.toLowerCase()` on the ASCII range (the only
characters the scanned option texts and the type strings use):
per-character lowering. -/
def jsToLower (s : String) : String := String.mk (s.data.map Char.toLower)

/-- ASCII whitespace, the fragment of JS `trim()`s whitespace class the
scanned texts can contain. -/
def isJsSpace (c : Char) : Bool := c = ' ' || c = '\t' || c = '\n' || c = '\r'

/-- JS `String.prototype.trim()`: drop whitespace from both ends. -/
def jsTrim (s : String) : String :=
  String.mk (((s.data.dropWhile isJsSpace).reverse.dropWhile isJsSpace).reverse)

/-- JS `str.padStart(2, '0')` as used on month/day numbers. -/
def padStart2 (s : String) : String :=
  if s.length ≥ 2 then s else String.mk (List.replicate (2 - s.length) '0') ++ s

-- ===========================================================================
-- Data model (src/core/types.ts)
-- ===========================================================================

/-- `EventType = 'Entrada' | 'Salida'` (types.ts). -/
inductive EventType
  | entrada
  | salida
deriving DecidableEq, Repr

/-- The display / union string of an `EventType`. -/
def EventType.text : EventType → String
  | .entrada => "Entrada"
  | .salida => "Salida"

/-- `TimeSlot { time: string; type: EventType }` (types.ts). -/
structure TimeSlot where
  time : String
  type : EventType
deriving DecidableEq, Repr

/-- `EventResult { time; type; success; error? }` (types.ts). -/
structure EventResult where
  time : String
  type : EventType
  success : Bool
  error : Option String
deriving DecidableEq, Repr

-- ===========================================================================
-- TimeEventCreator.formatTimeForInput (events.ts, bundled in config.ts
-- lines 399-402)
-- ===========================================================================

/-- JS `time.replace(':', '')`: a string pattern replaces only the first
occurrence. -/
def removeFirstColon : List Char → List Char
  | [] => []
  | c :: cs => if c = ':' then cs else c :: removeFirstColon cs

/-- JS `str.replace(/^0+/, '')`: strip the leading run of zeros. -/
def stripLeadingZeros : List Char → List Char
  | [] => []
  | c :: cs => if c = '0' then stripLeadingZeros cs else c :: cs

/-- `formatTimeForInput(time)`: drop the (first) colon, strip leading
zeros, and `|| '0'` turns an empty result into `"0"`. -/
def formatTimeForInput (time : String) : String :=
  let timeWithoutColon := removeFirstColon time.data
  let stripped := stripLeadingZeros timeWithoutColon
  if stripped = [] then "0" else String.mk stripped

/-- Modelled from the spec: the compact-time transform as the spec words
it — "colon removed, leading zeros stripped, and the empty-string case
maps to `\"0\"`". Written independently of the source function, for
comparison with `formatTimeForInput`. -/
def compactTimeSpec (time : String) : String :=
  let digits := time.data.filter (fun c => c != ':')
  let stripped := stripLeadingZeros digits
  if stripped = [] then "0" else String.mk stripped

-- ===========================================================================
-- TimeEventCreator (events.ts, bundled in config.ts lines 301-543)
-- ===========================================================================

/-- One run of `createEvent` against the page: the outcome of each
awaited page call site, in source order. `waitForSelector` and `click`
calls yield `Except String Unit`; `page.$(sel)` yields
`Except String Bool` (`true` = element handle, `false` = `null`);
`page.evaluate` of the strategy-3 scan is split into the outcome of the
evaluate call itself (`evalOutcome`) and the DOM it scans
(`queryAllTexts sel` = the `textContent` of each element matching
`sel`, in document order, with `null` coalesced to `""`). -/
structure EventPage where
  waitTimeEventsBtn : Except String Unit
  clickTimeEventsBtn : Except String Unit
  waitCreateBtn : Except String Unit
  clickCreateBtn : Except String Unit
  waitTimeInput : Except String Unit
  clickTimeInput : Except String Unit
  typeTimeInput : String → Except String Unit
  waitTypeDropdown : Except String Unit
  clickTypeDropdownA : Except String Unit
  clickTypeDropdownA3 : Except String Unit
  typeTypeDropdown : String → Except String Unit
  pressEnterKey : Except String Unit
  clickTypeDropdownB : Except String Unit
  queryItem : String → Except String Bool
  clickItem : String → Except String Unit
  evalOutcome : Except String Unit
  queryAllTexts : String → List String
  waitSubmitBtn : Except String Unit
  clickSubmitBtn : Except String Unit

/-- `clickTimeEventsButton`: waitForSelector + click, wrapped by its own
catch. -/
def clickTimeEventsButton (p : EventPage) : Except String Unit :=
  match p.waitTimeEventsBtn with
  | .error e => .error ("Failed to click Time Events button: " ++ e)
  | .ok _ =>
    match p.clickTimeEventsBtn with
    | .error e => .error ("Failed to click Time Events button: " ++ e)
    | .ok _ => .ok ()

/-- `clickCreateButton`: waitForSelector + click, wrapped by its own
catch. -/
def clickCreateButton (p : EventPage) : Except String Unit :=
  match p.waitCreateBtn with
  | .error e => .error ("Failed to click Create button: " ++ e)
  | .ok _ =>
    match p.clickCreateBtn with
    | .error e => .error ("Failed to click Create button: " ++ e)
    | .ok _ => .ok ()

/-- `submitEvent`: waitForSelector + click, wrapped by its own catch. -/
def submitEvent (p : EventPage) : Except String Unit :=
  match p.waitSubmitBtn with
  | .error e => .error ("Failed to submit event: " ++ e)
  | .ok _ =>
    match p.clickSubmitBtn with
    | .error e => .error ("Failed to submit event: " ++ e)
    | .ok _ => .ok ()

/-- The three type-selection strategies of `fillTimeAndType`, for the
ghost attempt trace: strategy 1 = direct typing, strategy 2 = fixed
candidate selector list, strategy 3 = text-content scan. -/
inductive Strategy
  | direct
  | selectorList
  | textScan
deriving DecidableEq, Repr

/-- Strategy 1 (direct input): waitForSelector on the type dropdown,
click, triple-click, type the type text, press Enter — one try block,
the first rejected call aborts it. -/
def tryDirectInput (p : EventPage) (ty : String) : Except String Unit :=
  match p.waitTypeDropdown with
  | .error e => .error e
  | .ok _ =>
    match p.clickTypeDropdownA with
    | .error e => .error e
    | .ok _ =>
      match p.clickTypeDropdownA3 with
      | .error e => .error e
      | .ok _ =>
        match p.typeTypeDropdown ty with
        | .error e => .error e
        | .ok _ => p.pressEnterKey

/-- The fixed candidate selector lists of strategy 2
(`selectorsToTry`), per type string. -/
def selectorsToTry (ty : String) : List String :=
  if ty = "Entrada" then
    ["#__item15-titleText", "#__item15-content > div", "#__item15",
     "#sap\\.sf\\.attendancerecording\\.timesheets---timeRecordingView--vh-timeEventTypeCode-popup"]
  else
    ["#__item19", "#__item19-titleText", "#__item19-content > div"]

/-- Strategy 2 loop body: for each candidate, `page.$` then
`element.click()`, both inside a per-candidate catch that logs and
moves on; the first clicked candidate breaks with success. -/
def trySelectorList (p : EventPage) : List String → Bool
  | [] => false
  | sel :: rest =>
    match p.queryItem sel with
    | .error _ => trySelectorList p rest
    | .ok false => trySelectorList p rest
    | .ok true =>
      match p.clickItem sel with
      | .error _ => trySelectorList p rest
      | .ok _ => true

/-- The generic option-like selectors the strategy-3 in-page scan walks,
in order. -/
def textScanSelectors : List String :=
  ["li[role=\"option\"]", "ui5-li", "[role=\"option\"]", "li",
   ".sapMSelectListItem", ".sapMListItem", "[id*=\"item\"]"]

/-- The pure part of the strategy-3 `page.evaluate` function: scan each
generic selector's matches for a rendered text equal to (lowercased,
trimmed) or containing the target type, and report whether one was
found (the in-page `element.click()` has no failure path). -/
def scanOptions (queryAllTexts : String → List String) (ty : String) : Bool :=
  textScanSelectors.any fun sel =>
    (queryAllTexts sel).any fun raw =>
      let text := jsTrim (jsToLower raw)
      text == jsToLower ty || jsIncludes text (jsToLower ty)

/-- Strategy 3: the awaited `page.evaluate` call — it can itself reject,
otherwise it returns the boolean of `scanOptions`. -/
def tryTextScan (p : EventPage) (ty : String) : Except String Bool :=
  match p.evalOutcome with
  | .error e => .error e
  | .ok _ => .ok (scanOptions p.queryAllTexts ty)

/-- The type-selection part of `fillTimeAndType` with a ghost trace of
the strategies started, in order. Strategy 1 runs first; its catch
starts strategy 2 with a fresh dropdown click whose failure is caught
by the strategy-2/3 catch (so strategy 3 never starts); if the
candidate loop finds nothing, strategy 3 runs inside the same try, and
`false` from the scan raises "All strategies failed to select type",
rewrapped by the strategy-2/3 catch. -/
def selectType (p : EventPage) (ty : String) : Except String Unit × List Strategy :=
  match tryDirectInput p ty with
  | .ok _ => (.ok (), [Strategy.direct])
  | .error _ =>
    match p.clickTypeDropdownB with
    | .error e =>
      (.error ("Failed to select type after trying all strategies: " ++ e),
       [Strategy.direct, Strategy.selectorList])
    | .ok _ =>
      if trySelectorList p (selectorsToTry ty) then
        (.ok (), [Strategy.direct, Strategy.selectorList])
      else
        match tryTextScan p ty with
        | .error e =>
          (.error ("Failed to select type after trying all strategies: " ++ e),
           [Strategy.direct, Strategy.selectorList, Strategy.textScan])
        | .ok true =>
          (.ok (), [Strategy.direct, Strategy.selectorList, Strategy.textScan])
        | .ok false =>
          (.error ("Failed to select type after trying all strategies: " ++
             ("All strategies failed to select type: " ++ ty)),
           [Strategy.direct, Strategy.selectorList, Strategy.textScan])

/-- `fillTimeAndType(time, type)`: wait/click/type the formatted time,
then select the type; every failure is rewrapped by the outer catch as
"Failed to fill time and type". The second component is the ghost
strategy trace (empty when the time-filling part already failed). -/
def fillTimeAndType (p : EventPage) (time ty : String) : Except String Unit × List Strategy :=
  match p.waitTimeInput with
  | .error e => (.error ("Failed to fill time and type: " ++ e), [])
  | .ok _ =>
    match p.clickTimeInput with
    | .error e => (.error ("Failed to fill time and type: " ++ e), [])
    | .ok _ =>
      match p.typeTimeInput (formatTimeForInput time) with
      | .error e => (.error ("Failed to fill time and type: " ++ e), [])
      | .ok _ =>
        match selectType p ty with
        | (.ok _, tr) => (.ok (), tr)
        | (.error e, tr) => (.error ("Failed to fill time and type: " ++ e), tr)

/-- `createEvent(slot)`: the four stages in order inside one try; any
stage failure is converted at this boundary into
`{success: false, error}` — the function is total (never throws),
which the `EventResult` return type of this embedding makes
structural. Second component: the ghost strategy trace. -/
def createEvent (p : EventPage) (slot : TimeSlot) : EventResult × List Strategy :=
  match clickTimeEventsButton p with
  | .error e =>
    (⟨slot.time, slot.type, false, some e⟩, [])
  | .ok _ =>
    match clickCreateButton p with
    | .error e => (⟨slot.time, slot.type, false, some e⟩, [])
    | .ok _ =>
      match fillTimeAndType p slot.time slot.type.text with
      | (.error e, tr) => (⟨slot.time, slot.type, false, some e⟩, tr)
      | (.ok _, tr) =>
        match submitEvent p with
        | .error e => (⟨slot.time, slot.type, false, some e⟩, tr)
        | .ok _ => (⟨slot.time, slot.type, true, none⟩, tr)

/-- The indexed loop of `createAllEvents`: slot `i` runs against the
page as it stands at iteration `i` (`env i`). The source wraps the
`createEvent` call in a try whose catch builds the same failure record;
since `createEvent` captures every failure itself, that catch never
fires, and the loop appends exactly one result per slot. The 2-second
inter-entry pause cannot fail and is dropped. -/
def createAllEventsFrom (env : Nat → EventPage) : Nat → List TimeSlot → List EventResult
  | _, [] => []
  | i, slot :: rest => (createEvent (env i) slot).1 :: createAllEventsFrom env (i + 1) rest

/-- `createAllEvents(slots)`. -/
def createAllEvents (env : Nat → EventPage) (slots : List TimeSlot) : List EventResult :=
  createAllEventsFrom env 0 slots

-- ===========================================================================
-- TimesheetNavigator (src/time-tracking/navigation.ts)
-- ===========================================================================

/-- One run of `navigateToTimesheet` against the page: the outcome of
each awaited call site of the primary UI path and of the direct-URL
`page.goto`. -/
structure NavPage where
  waitTimeTrackingIcon : Except String Unit
  clickTimeTrackingIcon : Except String Unit
  waitViewTimesheetLink : Except String Unit
  clickViewTimesheetLink : Except String Unit
  gotoUrl : String → Except String Unit

/-- The constructor-held configuration of `TimesheetNavigator`
(`baseUrl` is stored but, as the theorems below show, never read by
`getDirectTimesheetUrl`). -/
structure Navigator where
  baseUrl : String
  userId : String

/-- `getCurrentDateString()`: `${getFullYear()}-${...month+1
padStart(2,'0')}-${...getDate() padStart(2,'0')}`, with the current
local date passed in as year/month/day numbers (month already 1-based,
as after the source's `+ 1`). -/
def getCurrentDateString (year month day : Nat) : String :=
  toString year ++ "-" ++ padStart2 (toString month) ++ "-" ++ padStart2 (toString day)

/-- `getDirectTimesheetUrl()`: the host part is the hardcoded literal
`https://hcm-eu30.hr.cloud.sap`, not the stored `baseUrl`. -/
def getDirectTimesheetUrl (nav : Navigator) (year month day : Nat) : String :=
  "https://hcm-eu30.hr.cloud.sap/sf/timesheet#/timerecords/" ++ nav.userId ++ "/"
    ++ getCurrentDateString year month day

/-- Modelled from the spec: the fallback URL as the spec words it,
`{baseHost}/sf/timesheet#/timerecords/{userId}/{date}` with `baseHost`
taken from the configured base URL. Written independently of the
source function, for comparison with `getDirectTimesheetUrl`. -/
def specFallbackUrl (baseHost userId : String) (year month day : Nat) : String :=
  baseHost ++ "/sf/timesheet#/timerecords/" ++ userId ++ "/"
    ++ getCurrentDateString year month day

/-- The primary UI navigation path: wait for the time-tracking icon
(15s), click it, wait for the view-timesheet link (10s), click it —
one try block, the first rejected call aborts it. -/
def primaryNavigation (p : NavPage) : Except String Unit :=
  match p.waitTimeTrackingIcon with
  | .error e => .error e
  | .ok _ =>
    match p.clickTimeTrackingIcon with
    | .error e => .error e
    | .ok _ =>
      match p.waitViewTimesheetLink with
      | .error e => .error e
      | .ok _ => p.clickViewTimesheetLink

/-- The body of the fallback try block: `if (!this.userId) throw`, then
`page.goto(directUrl)` with a 30s timeout. -/
def fallbackNavigation (p : NavPage) (nav : Navigator) (year month day : Nat) :
    Except String Unit :=
  if nav.userId = "" then .error "User ID not configured for direct URL navigation"
  else p.gotoUrl (getDirectTimesheetUrl nav year month day)

/-- `navigateToTimesheet()` with a ghost flag: the second component
records whether the direct-URL fallback was entered. The primary path's
catch runs the fallback; the fallback's own catch throws the single
combined error. -/
def navigateToTimesheet (p : NavPage) (nav : Navigator) (year month day : Nat) :
    Except String Unit × Bool :=
  match primaryNavigation p with
  | .ok _ => (.ok (), false)
  | .error uiError =>
    match fallbackNavigation p nav year month day with
    | .ok _ => (.ok (), true)
    | .error urlError =>
      (.error ("All navigation methods failed. UI: " ++ uiError ++ ", URL: " ++ urlError),
       true)

-- ===========================================================================
-- Authenticator (src/authentication/auth.ts)
-- ===========================================================================

/-- The selector configuration handed to the authenticator
(`Selectors` of types.ts; only the fields the authenticator reads are
needed here). -/
structure Selectors where
  usernameInput : String
  passwordInput : String
  loginButton : String
  totpInput : String
deriving DecidableEq, Repr

/-- The second and third TOTP candidate selectors (fixed literals in
`authenticate`). -/
def totpNameSelector : String := "input[name=\"totp\"]"

/-- See `totpNameSelector`. -/
def totpGenericSelector : String := "input[type=\"text\"][autocomplete=\"off\"]"

/-- One run of the authenticator against the page: the outcome of each
awaited call site. `page.url()` is synchronous and cannot reject, so
URLs are plain strings, one per read site (`urlAtCheck` inside
`isRequired`, `urlAfterPolling` in the missing-TOTP branch of
`authenticate`). `pollTotp i sel` is the `page.$(sel)` of polling
attempt `i`; `recheckTotp sel` the fresh `page.$(sel)` of the
working-selector re-probe. -/
structure AuthPage where
  queryUsernameAtCheck : Except String Bool
  queryTotpAtCheck : Except String Bool
  urlAtCheck : String
  queryUsernameAtAuth : Except String Bool
  waitUsernameInput : Except String Unit
  clickUsernameInput : Except String Unit
  typeUsername : Except String Unit
  waitPasswordInput : Except String Unit
  clickPasswordInput : Except String Unit
  typePassword : Except String Unit
  waitLoginButton : Except String Unit
  clickLoginBtn : Except String Unit
  pollTotp : Nat → String → Except String Bool
  recheckTotp : String → Except String Bool
  generateTotp : Except String String
  clickTotpField : String → Except String Unit
  typeTotpCode : String → String → Except String Unit
  pressEnterKey : Except String Unit
  urlAfterPolling : String

/-- The URL probe of `isRequired`:
`url.includes('login') || url.includes('auth') ||
url.includes('keycloak')`. -/
def urlNeedsAuth (url : String) : Bool :=
  jsIncludes url "login" || jsIncludes url "auth" || jsIncludes url "keycloak"

/-- `isRequired()`: probe the username input, then the TOTP input, then
the URL, short-circuiting on the first hit; the surrounding catch turns
any probing exception into `false`, so the function is total with a
plain `Bool` result (it can never propagate an exception). -/
def isRequired (p : AuthPage) : Bool :=
  match p.queryUsernameAtCheck with
  | .error _ => false
  | .ok true => true
  | .ok false =>
    match p.queryTotpAtCheck with
    | .error _ => false
    | .ok true => true
    | .ok false => urlNeedsAuth p.urlAtCheck

/-- `enterCredentials()`: wait/click/type username then password, one
try block wrapped by its own catch. -/
def enterCredentials (p : AuthPage) : Except String Unit :=
  match (do p.waitUsernameInput; p.clickUsernameInput; p.typeUsername;
            p.waitPasswordInput; p.clickPasswordInput; p.typePassword :
         Except String Unit) with
  | .error e => .error ("Failed to enter credentials: " ++ e)
  | .ok _ => .ok ()

/-- `clickLoginButton()`: wait + click, wrapped by its own catch. The
parallel `waitForNavigation(...).catch(() => {})` swallows its own
failure, so only this call's outcome reaches `Promise.all`. -/
def clickLoginButton (p : AuthPage) : Except String Unit :=
  match (do p.waitLoginButton; p.clickLoginBtn : Except String Unit) with
  | .error e => .error ("Failed to click login button: " ++ e)
  | .ok _ => .ok ()

/-- The credential phase of `authenticate`: runs only when the username
input was found. -/
def credentialPhase (p : AuthPage) (usernameFound : Bool) : Except String Unit :=
  if usernameFound then
    match enterCredentials p with
    | .error e => .error e
    | .ok _ => clickLoginButton p
  else .ok ()

/-- One polling attempt of the TOTP loop: `page.$` on the configured
selector, then on `input[name="totp"]`, then on the generic text-input
selector, stopping at the first found; each `page.$` can itself
reject, which propagates. -/
def pollAttempt (p : AuthPage) (sel : Selectors) (i : Nat) : Except String Bool :=
  match p.pollTotp i sel.totpInput with
  | .error e => .error e
  | .ok true => .ok true
  | .ok false =>
    match p.pollTotp i totpNameSelector with
    | .error e => .error e
    | .ok true => .ok true
    | .ok false => p.pollTotp i totpGenericSelector

/-- The bounded polling loop of `authenticate`, attempts `i`,
`i + 1`, … with `fuel` attempts left (source: `for i in 0..9`, a
1-second pause between attempts, break on the first find). -/
def pollFrom (p : AuthPage) (sel : Selectors) : Nat → Nat → Except String Bool
  | _, 0 => .ok false
  | i, fuel + 1 =>
    match pollAttempt p sel i with
    | .error e => .error e
    | .ok true => .ok true
    | .ok false => pollFrom p sel (i + 1) fuel

/-- The full 10-attempt TOTP poll. -/
def findTotpInput (p : AuthPage) (sel : Selectors) : Except String Bool :=
  pollFrom p sel 0 10

/-- The working-selector re-probe: `workingSelector` starts as the
configured selector and is replaced only when a fresh `page.$` run
finds one of the fallbacks (and the configured one is now absent). -/
def determineWorkingSelector (p : AuthPage) (sel : Selectors) : Except String String :=
  match p.recheckTotp sel.totpInput with
  | .error e => .error e
  | .ok true => .ok sel.totpInput
  | .ok false =>
    match p.recheckTotp totpNameSelector with
    | .error e => .error e
    | .ok true => .ok totpNameSelector
    | .ok false =>
      match p.recheckTotp totpGenericSelector with
      | .error e => .error e
      | .ok true => .ok totpGenericSelector
      | .ok false => .ok sel.totpInput

/-- `enterTotpCode(code, selector)`: pause, triple-click, type — one
try block wrapped by its own catch. -/
def enterTotpCode (p : AuthPage) (code selector : String) : Except String Unit :=
  match (do p.clickTotpField selector; p.typeTotpCode selector code :
         Except String Unit) with
  | .error e => .error ("Failed to enter TOTP code: " ++ e)
  | .ok _ => .ok ()

/-- `submitTotpAuthentication()`: press Enter, wrapped by its own
catch. -/
def submitTotpAuthentication (p : AuthPage) : Except String Unit :=
  match p.pressEnterKey with
  | .error e => .error ("Failed to submit TOTP authentication: " ++ e)
  | .ok _ => .ok ()

/-- The TOTP phase once a field was found: generate the code (the
generator's own wrapper message travels in its `.error`), re-probe the
working selector, enter, submit. `waitForAuthenticationComplete` only
races timeouts and logs — its catch swallows everything, so it is a
no-op here. -/
def totpPhase (p : AuthPage) (sel : Selectors) : Except String Unit :=
  match p.generateTotp with
  | .error e => .error e
  | .ok code =>
    match determineWorkingSelector p sel with
    | .error e => .error e
    | .ok workingSelector =>
      match enterTotpCode p code workingSelector with
      | .error e => .error e
      | .ok _ => submitTotpAuthentication p

/-- The body of `authenticate`'s try block: optional credential phase,
bounded TOTP polling, then either the TOTP phase or — when no field
ever appeared — the companyEntry check, whose throw is the only
locally-raised failure of that branch. -/
def authenticateBody (p : AuthPage) (sel : Selectors) : Except String Unit :=
  match p.queryUsernameAtAuth with
  | .error e => .error e
  | .ok usernameFound =>
    match credentialPhase p usernameFound with
    | .error e => .error e
    | .ok _ =>
      match findTotpInput p sel with
      | .error e => .error e
      | .ok true => totpPhase p sel
      | .ok false =>
        if jsIncludes p.urlAfterPolling "/companyEntry" then
          .error "Ended up on companyEntry page - TOTP was likely required but not completed"
        else .ok ()

/-- `authenticate()`: the outer catch rewraps every failure as
`Authentication failed: …`. -/
def authenticate (p : AuthPage) (sel : Selectors) : Except String Unit :=
  match authenticateBody p sel with
  | .error e => .error ("Authentication failed: " ++ e)
  | .ok _ => .ok ()

-- ===========================================================================
-- main (src/index.ts): the run orchestrator after configuration and
-- schedule computation (both external per the spec) have produced the
-- due slots
-- ===========================================================================

/-- The browser-touching phases of `main`, for the ghost action trace:
everything after the empty-schedule early return. -/
inductive RunAction
  | launchBrowser
  | navigateInitial
  | authPhase
  | navTimesheet
  | createEvents
deriving DecidableEq, Repr

/-- One run of `main` from the point where the due slots are known:
the externally computed `availableSlots`, the outcomes of browser
launch and the initial `navigate(config.url)`, the authenticator's and
navigator's pages/configuration, the URL read for the companyEntry
correction, and the event page of each loop iteration. The best-effort
re-navigation after a companyEntry detection catches its own failure
(`renavigateHome` has no control effect and is kept only for the
record). -/
structure RunEnv where
  availableSlots : List TimeSlot
  launch : Except String Unit
  navigateInitial : Except String Unit
  authPage : AuthPage
  authSelectors : Selectors
  urlAfterAuth : String
  renavigateHome : Except String Unit
  navPage : NavPage
  navigator : Navigator
  year : Nat
  month : Nat
  day : Nat
  eventPages : Nat → EventPage

/-- `eventResults.filter(r => r.success).length`. -/
def successCount (results : List EventResult) : Nat :=
  (results.filter fun r => r.success).length

/-- The authentication phase of `main`: `isRequired`, then
`authenticate` when required, then the companyEntry correction whose
own failure is caught and only logged. -/
def runAuthPhase (env : RunEnv) : Except String Unit :=
  if isRequired env.authPage then
    match authenticate env.authPage env.authSelectors with
    | .error e => .error e
    | .ok _ => .ok ()
  else .ok ()

/-- `main()` from the schedule decision on, as
(exit code, event results, ghost action trace): an empty
`availableSlots` returns success before any browser work; any failure
of launch, initial navigation, authentication or timesheet navigation
reaches the top-level catch and exits 1; otherwise the events run and
the exit code is 0 exactly when at least one result succeeded.
Configuration loading and schedule computation precede this model and
are external collaborators in the spec. -/
def mainRun (env : RunEnv) : Nat × List EventResult × List RunAction :=
  if env.availableSlots.isEmpty then (0, [], [])
  else
    match env.launch with
    | .error _ => (1, [], [RunAction.launchBrowser])
    | .ok _ =>
      match env.navigateInitial with
      | .error _ => (1, [], [RunAction.launchBrowser, RunAction.navigateInitial])
      | .ok _ =>
        match runAuthPhase env with
        | .error _ =>
          (1, [], [RunAction.launchBrowser, RunAction.navigateInitial,
                   RunAction.authPhase])
        | .ok _ =>
          match (navigateToTimesheet env.navPage env.navigator env.year env.month
                   env.day).1 with
          | .error _ =>
            (1, [], [RunAction.launchBrowser, RunAction.navigateInitial,
                     RunAction.authPhase, RunAction.navTimesheet])
          | .ok _ =>
            let results := createAllEvents env.eventPages env.availableSlots
            ((if 0 < successCount results then 0 else 1), results,
             [RunAction.launchBrowser, RunAction.navigateInitial,
              RunAction.authPhase, RunAction.navTimesheet, RunAction.createEvents])

-- ===========================================================================
-- Theorems
-- ===========================================================================

/-- Every branch of `createEvent` rebuilds the result from the slot it
was given. -/
theorem createEvent_time_type (p : EventPage) (slot : TimeSlot) :
    (createEvent p slot).1.time = slot.time ∧ (createEvent p slot).1.type = slot.type := by
  unfold createEvent
  repeat' split
  all_goals exact ⟨rfl, rfl⟩

/-- The loop of `createAllEvents` produces one result per slot. -/
theorem createAllEventsFrom_length (env : Nat → EventPage) :
    ∀ (slots : List TimeSlot) (k : Nat),
      (createAllEventsFrom env k slots).length = slots.length := by
  intro slots
  induction slots with
  | nil => intro k; rfl
  | cons slot rest ih => intro k; simp [createAllEventsFrom, ih]

/-- The `i`-th result of the loop comes from running `createEvent` on
the `i`-th slot. -/
theorem createAllEventsFrom_get (env : Nat → EventPage) :
    ∀ (slots : List TimeSlot) (k i : Nat) (s : TimeSlot), slots[i]? = some s →
      (createAllEventsFrom env k slots)[i]? = some (createEvent (env (k + i)) s).1 := by
  intro slots
  induction slots with
  | nil => intro k i s hs; simp at hs
  | cons slot rest ih =>
    intro k i s hs
    cases i with
    | zero => simp at hs; simp [createAllEventsFrom, hs]
    | succ j =>
      simp at hs
      have := ih (k + 1) j s hs
      simpa [createAllEventsFrom, Nat.add_assoc, Nat.add_comm 1 j] using this

/-- C1: `createAllEvents` returns exactly one result per input slot, in
input order, the `i`-th result carrying the `i`-th slot's time and
type; and since `createEvent` converts every stage failure into a
`success := false` result (both functions are total by construction in
this embedding), no individual failure aborts later slots or escapes
`createAllEvents`. -/
theorem C1_createAllEvents_pointwise :
    ∀ (env : Nat → EventPage) (slots : List TimeSlot),
      (createAllEvents env slots).length = slots.length ∧
      ∀ i, i < slots.length → ∃ r s,
        (createAllEvents env slots)[i]? = some r ∧ slots[i]? = some s ∧
        r.time = s.time ∧ r.type = s.type := by
  intro env slots
  refine ⟨createAllEventsFrom_length env slots 0, ?_⟩
  intro i hi
  have hs : slots[i]? = some slots[i] := List.getElem?_eq_getElem hi
  refine ⟨(createEvent (env (0 + i)) slots[i]).1, slots[i], ?_, hs, ?_, ?_⟩
  · exact createAllEventsFrom_get env slots 0 i slots[i] hs
  · exact (createEvent_time_type (env (0 + i)) slots[i]).1
  · exact (createEvent_time_type (env (0 + i)) slots[i]).2

/-- A digit character is not the colon. -/
theorem digit_ne_colon {c : Char} (h : c.isDigit) : c ≠ ':' := by
  intro hc
  subst hc
  exact absurd h (by decide)

/-- C2: on every `"HH:MM"` string the source transform
`formatTimeForInput` is exactly the spec's compact-time transform
(colon removed, leading zeros stripped off the concatenated digit
string, empty normalized to `"0"`), and the four quoted examples
evaluate as the claim states. -/
theorem C2_formatTime_compact :
    (∀ a b c d : Char, a.isDigit → b.isDigit → c.isDigit → d.isDigit →
      formatTimeForInput (String.mk [a, b, ':', c, d]) =
        compactTimeSpec (String.mk [a, b, ':', c, d])) ∧
    formatTimeForInput "08:00" = "800" ∧
    formatTimeForInput "14:45" = "1445" ∧
    formatTimeForInput "00:05" = "5" ∧
    formatTimeForInput "00:00" = "0" := by
  refine ⟨?_, by decide, by decide, by decide, by decide⟩
  intro a b c d ha hb hc hd
  have ha' : (a != ':') = true := bne_iff_ne.mpr (digit_ne_colon ha)
  have hb' : (b != ':') = true := bne_iff_ne.mpr (digit_ne_colon hb)
  have hc' : (c != ':') = true := bne_iff_ne.mpr (digit_ne_colon hc)
  have hd' : (d != ':') = true := bne_iff_ne.mpr (digit_ne_colon hd)
  simp [formatTimeForInput, compactTimeSpec, removeFirstColon,
    List.filter, ha', hb', hc', hd', digit_ne_colon ha, digit_ne_colon hb]

/-- The stages of `createEvent` that precede type selection all
succeed. -/
def preSelectionOk (p : EventPage) : Prop :=
  clickTimeEventsButton p = .ok () ∧ clickCreateButton p = .ok () ∧
  p.waitTimeInput = .ok () ∧ p.clickTimeInput = .ok () ∧
  ∀ s, p.typeTimeInput s = .ok ()

/-- An event page on which every call succeeds and no element query
finds anything (so the selection strategies come up empty). -/
def emptyEventPage : EventPage where
  waitTimeEventsBtn := .ok ()
  clickTimeEventsBtn := .ok ()
  waitCreateBtn := .ok ()
  clickCreateBtn := .ok ()
  waitTimeInput := .ok ()
  clickTimeInput := .ok ()
  typeTimeInput := fun _ => .ok ()
  waitTypeDropdown := .ok ()
  clickTypeDropdownA := .ok ()
  clickTypeDropdownA3 := .ok ()
  typeTypeDropdown := fun _ => .ok ()
  pressEnterKey := .ok ()
  clickTypeDropdownB := .ok ()
  queryItem := fun _ => .ok false
  clickItem := fun _ => .ok ()
  evalOutcome := .ok ()
  queryAllTexts := fun _ => []
  waitSubmitBtn := .ok ()
  clickSubmitBtn := .ok ()

/-- C3: type selection attempts the strategies strictly in the order
direct input, candidate selector list, text scan — the ghost trace is
always a prefix of that order; a success of strategy 1 ends the call at
trace `[direct]`; a strategy-2 success ends it at
`[direct, selectorList]`; and when all three run out of matches,
`createEvent` (whose result type makes "never throws" structural)
returns `success := false` with the error message naming the type. -/
theorem C3_strategy_order :
    ∀ (p : EventPage) (slot : TimeSlot),
      ((selectType p slot.type.text).2 = [Strategy.direct] ∨
       (selectType p slot.type.text).2 = [Strategy.direct, Strategy.selectorList] ∨
       (selectType p slot.type.text).2 =
         [Strategy.direct, Strategy.selectorList, Strategy.textScan]) ∧
      (tryDirectInput p slot.type.text = .ok () →
        selectType p slot.type.text = (.ok (), [Strategy.direct])) ∧
      (∀ e, tryDirectInput p slot.type.text = .error e →
        p.clickTypeDropdownB = .ok () →
        trySelectorList p (selectorsToTry slot.type.text) = true →
        selectType p slot.type.text = (.ok (), [Strategy.direct, Strategy.selectorList])) ∧
      (∀ e, tryDirectInput p slot.type.text = .error e →
        p.clickTypeDropdownB = .ok () →
        trySelectorList p (selectorsToTry slot.type.text) = false →
        tryTextScan p slot.type.text = .ok false →
        preSelectionOk p →
          (createEvent p slot).1.success = false ∧
          (createEvent p slot).1.error =
            some ("Failed to fill time and type: " ++
              ("Failed to select type after trying all strategies: " ++
                ("All strategies failed to select type: " ++ slot.type.text)))) := by
  intro p slot
  refine ⟨?_, ?_, ?_, ?_⟩
  · unfold selectType
    rcases htd : tryDirectInput p slot.type.text with e | u
    · rcases hB : p.clickTypeDropdownB with e2 | u2
      · simp
      · by_cases hl : trySelectorList p (selectorsToTry slot.type.text)
        · simp [hl]
        · rcases hts : tryTextScan p slot.type.text with e3 | b
          · simp [hl, hts]
          · cases b <;> simp [hl, hts]
    · simp
  · intro h
    simp [selectType, h]
  · intro e h1 h2 h3
    simp [selectType, h1, h2, h3]
  · intro e h1 h2 h3 h4 hpre
    obtain ⟨hp1, hp2, hp3, hp4, hp5⟩ := hpre
    constructor <;>
      simp [createEvent, hp1, hp2, fillTimeAndType, hp3, hp4, hp5,
        selectType, h1, h2, h3, h4]

/-- C10: once strategy 1 has failed, a failure of the dropdown click
that opens strategy 2 is caught by the strategy-2/3 catch — the text
scan is never started, and `createEvent` returns a failure result
wrapping that click's exception message. -/
theorem C10_strategyB_click_abort (p : EventPage) (slot : TimeSlot) (e1 e2 : String)
    (h1 : tryDirectInput p slot.type.text = .error e1)
    (h2 : p.clickTypeDropdownB = .error e2)
    (hpre : preSelectionOk p) :
    (selectType p slot.type.text).2 = [Strategy.direct, Strategy.selectorList] ∧
    Strategy.textScan ∉ (selectType p slot.type.text).2 ∧
    (createEvent p slot).1.success = false ∧
    (createEvent p slot).1.error =
      some ("Failed to fill time and type: " ++
        ("Failed to select type after trying all strategies: " ++ e2)) := by
  obtain ⟨hp1, hp2, hp3, hp4, hp5⟩ := hpre
  refine ⟨?_, ?_, ?_, ?_⟩ <;>
    simp [createEvent, hp1, hp2, fillTimeAndType, hp3, hp4, hp5,
      selectType, h1, h2]

/-- The event page of the C10 witness: strategy 1 dies on its
waitForSelector, and the strategy-2 dropdown click also fails. -/
def pageB : EventPage :=
  { emptyEventPage with
    waitTypeDropdown := .error "no dropdown"
    clickTypeDropdownB := .error "click failed" }

/-- Witness for C10 at a concrete page and slot. -/
theorem C10_witness :
    (selectType pageB ((⟨"08:00", EventType.entrada⟩ : TimeSlot)).type.text).2 =
      [Strategy.direct, Strategy.selectorList] ∧
    Strategy.textScan ∉
      (selectType pageB ((⟨"08:00", EventType.entrada⟩ : TimeSlot)).type.text).2 ∧
    (createEvent pageB (⟨"08:00", EventType.entrada⟩ : TimeSlot)).1.success = false ∧
    (createEvent pageB (⟨"08:00", EventType.entrada⟩ : TimeSlot)).1.error =
      some ("Failed to fill time and type: " ++
        ("Failed to select type after trying all strategies: " ++ "click failed")) :=
  C10_strategyB_click_abort pageB ⟨"08:00", EventType.entrada⟩ "no dropdown" "click failed"
    rfl rfl ⟨rfl, rfl, rfl, rfl, fun _ => rfl⟩

/-- C4: whenever the primary UI navigation path fails,
`navigateToTimesheet` enters the direct-URL fallback before raising
anything; a successful fallback yields success, and a failed fallback
yields the single combined error carrying both the primary and the
fallback failure messages. -/
theorem C4_navigation_fallback (p : NavPage) (nav : Navigator) (y m d : Nat) (e : String)
    (h1 : primaryNavigation p = .error e) :
    (navigateToTimesheet p nav y m d).2 = true ∧
    (fallbackNavigation p nav y m d = .ok () →
      (navigateToTimesheet p nav y m d).1 = .ok ()) ∧
    (∀ e2, fallbackNavigation p nav y m d = .error e2 →
      (navigateToTimesheet p nav y m d).1 =
        .error ("All navigation methods failed. UI: " ++ e ++ ", URL: " ++ e2)) := by
  refine ⟨?_, ?_, ?_⟩
  · unfold navigateToTimesheet
    rw [h1]
    rcases h2 : fallbackNavigation p nav y m d with e2 | u <;> simp
  · intro h2
    simp [navigateToTimesheet, h1, h2]
  · intro e2 h2
    simp [navigateToTimesheet, h1, h2]

/-- A navigation page whose primary path dies at the first wait and
whose `goto` also fails. -/
def failNavPage : NavPage where
  waitTimeTrackingIcon := .error "icon timeout"
  clickTimeTrackingIcon := .ok ()
  waitViewTimesheetLink := .ok ()
  clickViewTimesheetLink := .ok ()
  gotoUrl := fun _ => .error "goto failed"

/-- A concrete navigator configuration. -/
def navCfg : Navigator := ⟨"https://example.com", "U1"⟩

/-- Witness for C4 at a concrete page and configuration. -/
theorem C4_witness :
    (navigateToTimesheet failNavPage navCfg 2026 10 11).2 = true ∧
    (fallbackNavigation failNavPage navCfg 2026 10 11 = .ok () →
      (navigateToTimesheet failNavPage navCfg 2026 10 11).1 = .ok ()) ∧
    (∀ e2, fallbackNavigation failNavPage navCfg 2026 10 11 = .error e2 →
      (navigateToTimesheet failNavPage navCfg 2026 10 11).1 =
        .error ("All navigation methods failed. UI: " ++ "icon timeout" ++ ", URL: " ++ e2)) :=
  C4_navigation_fallback failNavPage navCfg 2026 10 11 "icon timeout" rfl

/-- C5 as claimed is false on the code: with the base URL (here equal
to its base host) configured as `https://example.com`, the fallback URL
is not `{baseHost}/sf/timesheet#/timerecords/{userId}/{date}` — the
host in `getDirectTimesheetUrl` is the hardcoded
`https://hcm-eu30.hr.cloud.sap`, and the stored `baseUrl` is never
read. -/
theorem C5_counterexample :
    getDirectTimesheetUrl ⟨"https://example.com", "U1"⟩ 2026 10 11 ≠
      specFallbackUrl "https://example.com" "U1" 2026 10 11 := by decide

/-- C5 amended: for every configured base URL and user identifier, the
fallback URL equals
`https://hcm-eu30.hr.cloud.sap/sf/timesheet#/timerecords/{userId}/{date}`
— the host is the hardcoded literal, independent of the configured
base URL — with the date formatted `YYYY-MM-DD` (zero-padded month and
day). -/
theorem C5_directUrl_hardcoded_host :
    ∀ (b b2 u : String) (y m d : Nat),
      getDirectTimesheetUrl ⟨b, u⟩ y m d =
        "https://hcm-eu30.hr.cloud.sap/sf/timesheet#/timerecords/" ++ u ++ "/"
          ++ getCurrentDateString y m d ∧
      getDirectTimesheetUrl ⟨b, u⟩ y m d = getDirectTimesheetUrl ⟨b2, u⟩ y m d ∧
      getCurrentDateString 2026 3 5 = "2026-03-05" :=
  fun _ _ _ _ _ _ => ⟨rfl, rfl, by decide⟩

/-- A poll that never finds a TOTP candidate returns `.ok false`. -/
theorem pollFrom_none (p : AuthPage) (sel : Selectors) :
    ∀ (fuel i : Nat),
      (∀ j, j < i + fuel →
        ∀ s, s ∈ [sel.totpInput, totpNameSelector, totpGenericSelector] →
          p.pollTotp j s = .ok false) →
      pollFrom p sel i fuel = .ok false := by
  intro fuel
  induction fuel with
  | zero => intro i _; rfl
  | succ n ih =>
    intro i h
    have hi : i < i + (n + 1) := by omega
    have h1 := h i hi sel.totpInput (by simp)
    have h2 := h i hi totpNameSelector (by simp)
    have h3 := h i hi totpGenericSelector (by simp)
    have hrest := ih (i + 1) (fun j hj s hs => h j (by omega) s hs)
    simp [pollFrom, pollAttempt, h1, h2, h3, hrest]

/-- C6: when the pre-polling phase completes and no TOTP field is found
by any of the three selector candidates in any of the 10 polling
attempts, `authenticate()` fails — with the wrapped companyEntry
message — exactly when the URL read after polling indicates the
misrouted company-selection state, and completes without error
otherwise. -/
theorem C6_missing_totp_field (p : AuthPage) (sel : Selectors) (u : Bool)
    (hu : p.queryUsernameAtAuth = .ok u)
    (hcred : credentialPhase p u = .ok ())
    (hpoll : ∀ j, j < 10 →
      ∀ s, s ∈ [sel.totpInput, totpNameSelector, totpGenericSelector] →
        p.pollTotp j s = .ok false) :
    (jsIncludes p.urlAfterPolling "/companyEntry" = true →
      authenticate p sel =
        .error ("Authentication failed: " ++
          "Ended up on companyEntry page - TOTP was likely required but not completed")) ∧
    (jsIncludes p.urlAfterPolling "/companyEntry" = false →
      authenticate p sel = .ok ()) := by
  have hfind : findTotpInput p sel = .ok false := by
    unfold findTotpInput
    exact pollFrom_none p sel 10 0 (by simpa using hpoll)
  constructor
  · intro hurl
    simp [authenticate, authenticateBody, hu, hcred, hfind, hurl]
  · intro hurl
    simp [authenticate, authenticateBody, hu, hcred, hfind, hurl]

/-- An authentication page showing a fully logged-in session: no
username input, no TOTP field at any probe, a neutral URL
everywhere. -/
def idleAuthPage : AuthPage where
  queryUsernameAtCheck := .ok false
  queryTotpAtCheck := .ok false
  urlAtCheck := "https://hcm-eu30.hr.cloud.sap/sf/start"
  queryUsernameAtAuth := .ok false
  waitUsernameInput := .ok ()
  clickUsernameInput := .ok ()
  typeUsername := .ok ()
  waitPasswordInput := .ok ()
  clickPasswordInput := .ok ()
  typePassword := .ok ()
  waitLoginButton := .ok ()
  clickLoginBtn := .ok ()
  pollTotp := fun _ _ => .ok false
  recheckTotp := fun _ => .ok false
  generateTotp := .ok "123456"
  clickTotpField := fun _ => .ok ()
  typeTotpCode := fun _ _ => .ok ()
  pressEnterKey := .ok ()
  urlAfterPolling := "https://hcm-eu30.hr.cloud.sap/sf/start"

/-- A concrete selector configuration. -/
def selCfg : Selectors := ⟨"#username", "#password", "#login", "#totp"⟩

/-- Witness for C6 at a concrete page: not misrouted, so `authenticate`
completes without error. -/
theorem C6_witness :
    (jsIncludes idleAuthPage.urlAfterPolling "/companyEntry" = true →
      authenticate idleAuthPage selCfg =
        .error ("Authentication failed: " ++
          "Ended up on companyEntry page - TOTP was likely required but not completed")) ∧
    (jsIncludes idleAuthPage.urlAfterPolling "/companyEntry" = false →
      authenticate idleAuthPage selCfg = .ok ()) :=
  C6_missing_totp_field idleAuthPage selCfg false rfl rfl
    (fun _ _ _ _ => rfl)

/-- C7: when the element probes answer, `isRequired()` is true exactly
when the username input exists, or the TOTP input exists, or the URL
contains one of the auth markers; and a probing exception that actually
occurs makes it return `false` (as a total `Bool`-valued function it
can never propagate one). -/
theorem C7_isRequired_probes (ap : AuthPage) :
    (∀ a b, ap.queryUsernameAtCheck = .ok a → ap.queryTotpAtCheck = .ok b →
      isRequired ap = (a || b || urlNeedsAuth ap.urlAtCheck)) ∧
    (∀ e, ap.queryUsernameAtCheck = .error e → isRequired ap = false) ∧
    (∀ e, ap.queryUsernameAtCheck = .ok false → ap.queryTotpAtCheck = .error e →
      isRequired ap = false) := by
  refine ⟨?_, ?_, ?_⟩
  · intro a b ha hb
    cases a <;> cases b <;> simp [isRequired, ha, hb]
  · intro e he
    simp [isRequired, he]
  · intro e ha he
    simp [isRequired, ha, he]

/-- C8: the run's exit code is nonzero exactly when the due-slot list
was non-empty and no event result succeeded; and any successful result
forces a zero exit code. -/
theorem C8_exit_code (env : RunEnv) :
    ((mainRun env).1 ≠ 0 ↔
      (env.availableSlots ≠ [] ∧ successCount (mainRun env).2.1 = 0)) ∧
    (0 < successCount (mainRun env).2.1 → (mainRun env).1 = 0) := by
  unfold mainRun
  split
  · rename_i hempty
    simp_all [successCount, List.isEmpty_iff]
  · rename_i hne
    have hne' : env.availableSlots ≠ [] := by
      simpa [List.isEmpty_iff] using hne
    rcases env.launch with e | u
    · simp [successCount, hne']
    · rcases env.navigateInitial with e | u
      · simp [successCount, hne']
      · rcases runAuthPhase env with e | u
        · simp [successCount, hne']
        · rcases (navigateToTimesheet env.navPage env.navigator env.year env.month
            env.day).1 with e | u
          · simp [successCount, hne']
          · by_cases hs :
              0 < successCount (createAllEvents env.eventPages env.availableSlots)
            · simp [hs, hne']
              omega
            · simp [hs, hne']
              omega

/-- C9: a run whose externally computed due-slot list is empty exits 0,
reports no processed entries, and performs none of the browser-side
phases (empty action trace: no launch, authentication, navigation or
creation). -/
theorem C9_empty_schedule (env : RunEnv) (h : env.availableSlots = []) :
    mainRun env = (0, [], []) := by
  simp [mainRun, h]

/-- A run environment with no due slots. -/
def emptyRunEnv : RunEnv where
  availableSlots := []
  launch := .ok ()
  navigateInitial := .ok ()
  authPage := idleAuthPage
  authSelectors := selCfg
  urlAfterAuth := "https://hcm-eu30.hr.cloud.sap/sf/start"
  renavigateHome := .ok ()
  navPage := failNavPage
  navigator := navCfg
  year := 2026
  month := 10
  day := 11
  eventPages := fun _ => emptyEventPage

/-- Witness for C9 at a concrete environment. -/
theorem C9_witness : mainRun emptyRunEnv = (0, [], []) :=
  C9_empty_schedule emptyRunEnv rfl

end SapTta
